import Mathlib

/-!
Verification of the climate (target-temperature) entity layer of
govee2mqtt (`src/hass_mqtt/climate.rs`).

The file embeds the code of `climate.rs` directly.  The collaborator
modules it uses (`crate::temperature`, `crate::platform_api`,
`crate::service::hass`) are not part of the fragment, so their
operations are modelled from the specification, each marked with a
doc comment starting `Modelled from the spec:`.
-/

section DataModel

/-- Modelled from the spec: the two supported temperature units
(`crate::temperature::TemperatureUnits`); the code spells Fahrenheit
as `Farenheit`. -/
inductive TemperatureUnits where
  | Celsius
  | Farenheit
deriving DecidableEq, Repr

/-- Modelled from the spec: the display-unit preference scale
(`crate::temperature::TemperatureScale`). -/
inductive TemperatureScale where
  | Celsius
  | Fahrenheit
deriving DecidableEq, Repr

/-- Modelled from the spec: conversion `TemperatureScale -> TemperatureUnits`
(the `units.into()` call in `TargetTemperatureEntity::new`). -/
def TemperatureScale.toUnits : TemperatureScale → TemperatureUnits
  | .Celsius => .Celsius
  | .Fahrenheit => .Farenheit

/-- Modelled from the spec: the wire token of a scale, used as the last
segment of the command topic (`unitToken ∈ {Celsius, Farenheit}`). -/
def TemperatureScale.display : TemperatureScale → String
  | .Celsius => "Celsius"
  | .Fahrenheit => "Farenheit"

/-- Modelled from the spec: the unit label published with the entity. -/
def TemperatureScale.unit_of_measurement : TemperatureScale → String
  | .Celsius => "°C"
  | .Fahrenheit => "°F"

/-- Modelled from the spec: an immutable temperature value tagged with
its unit (`crate::temperature::TemperatureValue`).  The `f64` payload is
modelled as a rational number. -/
structure TemperatureValue where
  value : ℚ
  units : TemperatureUnits
deriving DecidableEq, Repr

/-- Modelled from the spec: `TemperatureValue::new`. -/
def TemperatureValue.new (value : ℚ) (units : TemperatureUnits) : TemperatureValue :=
  ⟨value, units⟩

/-- Modelled from the spec: the exact Celsius↔Fahrenheit affine
transform behind `TemperatureValue::as_unit`: identity if the value is
already in the target unit, otherwise the affine conversion. -/
def TemperatureValue.as_unit (t : TemperatureValue) (target : TemperatureUnits) : TemperatureValue :=
  if t.units = target then t
  else
    match target with
    | .Celsius => ⟨(t.value - 32) * 5 / 9, .Celsius⟩
    | .Farenheit => ⟨t.value * 9 / 5 + 32, .Farenheit⟩

/-- Modelled from the spec: a JSON-ish default value attached to a
capability field; the code only ever asks `as_str` of it. -/
inductive JsonValue where
  | str (s : String)
  | num (q : ℚ)
  | boolean (b : Bool)
  | null
deriving DecidableEq, Repr

/-- Modelled from the spec: `serde_json::Value::as_str`: `some` exactly
on string values. -/
def JsonValue.as_str : JsonValue → Option String
  | .str s => some s
  | _ => none

/-- Modelled from the spec: an inclusive integer range carried by an
integer-kind capability field (`crate::platform_api::IntegerRange`). -/
structure IntegerRange where
  min : ℤ
  max : ℤ
deriving DecidableEq, Repr

/-- Modelled from the spec: the closed tagged-variant type of capability
field kinds (`crate::platform_api::DeviceParameters`): the
integer-range-with-unit kind, plus the other supported kinds. -/
inductive DeviceParameters where
  | Integer (unit : Option String) (range : IntegerRange)
  | Enum (options : List String)
  | Struct
  | String
deriving DecidableEq, Repr

/-- Modelled from the spec: a named field of a capability descriptor,
carrying a type tag and an optional default value
(`crate::platform_api::StructField`). -/
structure StructField where
  field_name : String
  field_type : DeviceParameters
  default_value : Option JsonValue
deriving DecidableEq, Repr

/-- Modelled from the spec: a vendor-supplied capability descriptor
(`crate::platform_api::DeviceCapability`): an `instance` name plus a
mapping from field name to field description. -/
structure DeviceCapability where
  instance_name : String
  fields : List StructField
deriving DecidableEq, Repr

/-- Modelled from the spec: `DeviceCapability::struct_field_by_name`,
the field-lookup-by-name used by the parser. -/
def DeviceCapability.struct_field_by_name (cap : DeviceCapability) (name : String) :
    Option StructField :=
  cap.fields.find? (fun f => f.field_name = name)

/-- Modelled from the spec: a device handle
(`crate::service::device::Device`), identified by its device id. -/
structure ServiceDevice where
  id : String
deriving DecidableEq, Repr

end DataModel

section ClimateSource

/-- Type `TemperatureConstraints` from `climate.rs`: a min and a max
temperature value. -/
structure TemperatureConstraints where
  min : TemperatureValue
  max : TemperatureValue
deriving DecidableEq, Repr

/-- Method `TemperatureConstraints::as_unit` from `climate.rs`: converts both
bounds to the given unit. -/
def TemperatureConstraints.as_unit (c : TemperatureConstraints) (unit : TemperatureUnits) :
    TemperatureConstraints :=
  { min := c.min.as_unit unit
    max := c.max.as_unit unit }

/-- The declared overall unit computed at the top of
`parse_temperature_constraints` in `climate.rs`: the optional `"unit"`
field declares Celsius exactly when its default value is the string
`"Celsius"`; any other default, a non-string default, or an absent
field yields Fahrenheit. -/
def declared_units (cap : DeviceCapability) : TemperatureUnits :=
  match cap.struct_field_by_name "unit" with
  | some field =>
    match field.default_value.bind JsonValue.as_str with
    | some s =>
      if s = "Celsius" then TemperatureUnits.Celsius
      else if s = "Farenheit" then TemperatureUnits.Farenheit
      else TemperatureUnits.Farenheit
    | none => TemperatureUnits.Farenheit
  | none => TemperatureUnits.Farenheit

/-- The unit used to interpret the raw range inside
`parse_temperature_constraints` in `climate.rs`: the field's own `unit`
attribute when it is literally `"Celsius"` or `"Farenheit"`, otherwise
the declared overall unit. -/
def range_units_of (unit : Option String) (units : TemperatureUnits) : TemperatureUnits :=
  match unit with
  | some s =>
    if s = "Celsius" then TemperatureUnits.Celsius
    else if s = "Farenheit" then TemperatureUnits.Farenheit
    else units
  | none => units

/-- The two schema failures of `parse_temperature_constraints` in
`climate.rs`: `anyhow!("no temperature field in {instance:?}")` and
`anyhow::bail!("Unexpected temperature value in {instance:?}")`, each
carrying the offending capability descriptor. -/
inductive SchemaError where
  | noTemperatureField (cap : DeviceCapability)
  | unexpectedTemperatureValue (cap : DeviceCapability)
deriving DecidableEq, Repr

/-- Function `parse_temperature_constraints` from `climate.rs`. -/
def parse_temperature_constraints (cap : DeviceCapability) :
    Except SchemaError TemperatureConstraints :=
  let units := declared_units cap
  match cap.struct_field_by_name "temperature" with
  | none => .error (.noTemperatureField cap)
  | some temperature =>
    match temperature.field_type with
    | .Integer unit range =>
      let range_units := range_units_of unit units
      let min := TemperatureValue.new (range.min : ℚ) range_units
      let max := TemperatureValue.new (range.max : ℚ) range_units
      .ok { min := min.as_unit units
            max := max.as_unit units }
    | _ => .error (.unexpectedTemperatureValue cap)

end ClimateSource

section TopicSafe

/-- Characters legal in a topic segment (kept verbatim by the
topic-safe transformation).  The underscore is the escape marker, so it
is not in the legal set. -/
def isTopicSafeChar (c : Char) : Bool :=
  c.isLower || c.isDigit || c = '-'

/-- Fixed-width (six hex digit) rendering of a character code, used to
escape a character that is illegal in a topic segment. -/
def hexDigits6 (n : Nat) : List Char :=
  [Nat.digitChar (n / 16 ^ 5 % 16), Nat.digitChar (n / 16 ^ 4 % 16),
   Nat.digitChar (n / 16 ^ 3 % 16), Nat.digitChar (n / 16 ^ 2 % 16),
   Nat.digitChar (n / 16 % 16), Nat.digitChar (n % 16)]

/-- Modelled from the spec: the per-character step of the topic-safe
transformation: a legal character is kept, any other character is
mapped deterministically to a safe substitute sequence. -/
def topicSafeChar (c : Char) : List Char :=
  if isTopicSafeChar c then [c] else '_' :: hexDigits6 c.toNat

/-- The topic-safe transformation on raw character lists. -/
def topic_safe_chars (s : List Char) : List Char :=
  (s.map topicSafeChar).flatten

/-- Modelled from the spec: `topic_safe_string` from
`crate::service::hass`: a deterministic, collision-free transformation
of an arbitrary identifier into characters legal within a topic path. -/
def topic_safe_string (s : String) : String :=
  ⟨topic_safe_chars s.data⟩

/-- Modelled from the spec: `topic_safe_id` from `crate::service::hass`:
the topic-safe form of the device identifier. -/
def topic_safe_id (device : ServiceDevice) : String :=
  topic_safe_string device.id

/-- Modelled from the spec: the availability reference published with
every entity (`availability_topic` from `crate::service::hass`). -/
def availability_topic : String :=
  "gv2mqtt/availability"

end TopicSafe

section EntityBuilder

/-- Modelled from the spec: the fields of the published entity
description that `climate.rs` fills in (`EntityConfig` from
`crate::hass_mqtt::base`). -/
structure EntityConfig where
  availability_topic : String
  name : Option String
  unique_id : String
  device_class : Option String
  icon : Option String
deriving DecidableEq, Repr

/-- Modelled from the spec: a number entity description (`NumberConfig`
from `crate::hass_mqtt::number`).  The published min/max are integers
(the code stores them as floats holding integer values). -/
structure NumberConfig where
  base : EntityConfig
  state_topic : Option String
  command_topic : String
  min : Option ℤ
  max : Option ℤ
  step : ℚ
  unit_of_measurement : Option String
deriving DecidableEq, Repr

/-- Type `TargetTemperatureEntity` from `climate.rs`. -/
structure TargetTemperatureEntity where
  number : NumberConfig
deriving DecidableEq, Repr

/-- Constructor `TargetTemperatureEntity::new` from `climate.rs`.  The one-time
display-unit preference snapshot (`state.get_temperature_scale()`) is
passed in as the `units` argument. -/
def TargetTemperatureEntity.new (device : ServiceDevice) (units : TemperatureScale)
    (cap : DeviceCapability) : Except SchemaError TargetTemperatureEntity :=
  match parse_temperature_constraints cap with
  | .error e => .error e
  | .ok parsed =>
    let constraints := parsed.as_unit units.toUnits
    let unique_id := topic_safe_id device ++ "-" ++ topic_safe_string cap.instance_name
    let name := "Target Temperature"
    let command_topic :=
      "gv2mqtt/" ++ topic_safe_id device ++ "/set-temperature/" ++
        topic_safe_string cap.instance_name ++ "/" ++ units.display
    .ok
      { number :=
        { base :=
          { availability_topic := availability_topic
            name := some name
            unique_id := unique_id
            device_class := some "temperature"
            icon := some "mdi:thermometer" }
          state_topic := none
          command_topic := command_topic
          min := some ⌊constraints.min.value⌋
          max := some ⌈constraints.max.value⌉
          step := 1
          unit_of_measurement := some units.unit_of_measurement } }

end EntityBuilder

section CommandRouter

/-- Modelled from the spec: `TemperatureScale` parses from exactly the
wire tokens `"Celsius"` and `"Farenheit"` (case-sensitive); any other
token fails (the `units.parse()` call in `mqtt_set_temperature`). -/
def TemperatureScale.parse (s : String) : Option TemperatureScale :=
  if s = "Celsius" then some TemperatureScale.Celsius
  else if s = "Farenheit" then some TemperatureScale.Fahrenheit
  else none

/-- Digit run to natural number (most significant first). -/
def digitsToNat (ds : List Char) : Nat :=
  ds.foldl (fun acc c => acc * 10 + (c.toNat - '0'.toNat)) 0

/-- Modelled from the spec: the command payload is a UTF-8 decimal
number, optionally signed, with an optional fractional part; anything
else fails to parse. -/
def parseDecimal (s : String) : Option ℚ :=
  let stripped : ℚ × List Char :=
    match s.data with
    | '-' :: rest => (-1, rest)
    | '+' :: rest => (1, rest)
    | cs => (1, cs)
  let sign := stripped.1
  match (stripped.2.span Char.isDigit) with
  | (intPart, rest) =>
    if intPart.isEmpty then none
    else
      match rest with
      | [] => some (sign * (digitsToNat intPart : ℚ))
      | '.' :: frac =>
        if !frac.isEmpty && frac.all Char.isDigit then
          some (sign * ((digitsToNat intPart : ℚ) +
            (digitsToNat frac : ℚ) / (10 ^ frac.length : ℚ)))
        else none
      | _ => none

/-- Modelled from the spec: `TemperatureValue::parse_with_optional_scale`:
parses a decimal number from the text and attaches the given scale;
fails on non-numeric input (the scale is always supplied here). -/
def TemperatureValue.parse_with_optional_scale (s : String)
    (scale : Option TemperatureScale) : Option TemperatureValue :=
  match scale with
  | some sc => (parseDecimal s).map (fun q => ⟨q, sc.toUnits⟩)
  | none => none

/-- The failure cases of the inbound command router. -/
inductive CmdError where
  | notFound (id : String)
  | parseScale (tok : String)
  | parseValue (txt : String)
deriving DecidableEq, Repr

/-- Handler `mqtt_set_temperature` from `climate.rs`.  The device/state
collaborator's resolution step is the `resolve_device` argument; on
success the function returns the `(device, instance, value)` triple that
the code forwards unchanged to `device_set_target_temperature`. -/
def mqtt_set_temperature (value : String) (id : String) (instance_name : String)
    (units : String) (resolve_device : String → Option ServiceDevice) :
    Except CmdError (ServiceDevice × String × TemperatureValue) :=
  match resolve_device id with
  | none => .error (.notFound id)
  | some device =>
    match TemperatureScale.parse units with
    | none => .error (.parseScale units)
    | some scale =>
      match TemperatureValue.parse_with_optional_scale value (some scale) with
      | none => .error (.parseValue value)
      | some target_value => .ok (device, instance_name, target_value)

end CommandRouter

section TopicSafeLemmas

theorem char_toNat_lt_16_pow_6 (c : Char) : c.toNat < 16 ^ 6 := by
  have h := c.valid
  rcases h with h | ⟨h1, h2⟩ <;> simp [Char.toNat] <;> omega

theorem digitChar_inj_of_lt {a b : Nat} (ha : a < 16) (hb : b < 16)
    (h : Nat.digitChar a = Nat.digitChar b) : a = b := by
  have key : ∀ x y : Fin 16, Nat.digitChar x.val = Nat.digitChar y.val → x = y := by decide
  exact congrArg Fin.val (key ⟨a, ha⟩ ⟨b, hb⟩ h)

theorem hexDigits6_length (n : Nat) : (hexDigits6 n).length = 6 := rfl

theorem hexDigits6_inj {n m : Nat} (hn : n < 16 ^ 6) (hm : m < 16 ^ 6)
    (h : hexDigits6 n = hexDigits6 m) : n = m := by
  simp only [hexDigits6, List.cons.injEq, and_true] at h
  obtain ⟨h5, h4, h3, h2, h1, h0⟩ := h
  have e5 := digitChar_inj_of_lt (Nat.mod_lt _ (by norm_num)) (Nat.mod_lt _ (by norm_num)) h5
  have e4 := digitChar_inj_of_lt (Nat.mod_lt _ (by norm_num)) (Nat.mod_lt _ (by norm_num)) h4
  have e3 := digitChar_inj_of_lt (Nat.mod_lt _ (by norm_num)) (Nat.mod_lt _ (by norm_num)) h3
  have e2 := digitChar_inj_of_lt (Nat.mod_lt _ (by norm_num)) (Nat.mod_lt _ (by norm_num)) h2
  have e1 := digitChar_inj_of_lt (Nat.mod_lt _ (by norm_num)) (Nat.mod_lt _ (by norm_num)) h1
  have e0 := digitChar_inj_of_lt (Nat.mod_lt _ (by norm_num)) (Nat.mod_lt _ (by norm_num)) h0
  norm_num at hn hm e5 e4 e3 e2 e1 e0
  omega

theorem topicSafeChar_ne_nil (c : Char) : topicSafeChar c ≠ [] := by
  unfold topicSafeChar
  split <;> simp

theorem topic_safe_chars_injective :
    ∀ {s t : List Char}, topic_safe_chars s = topic_safe_chars t → s = t := by
  intro s
  induction s with
  | nil =>
    intro t h
    cases t with
    | nil => rfl
    | cons d t =>
      exfalso
      simp only [topic_safe_chars, List.map_nil, List.flatten_nil, List.map_cons,
        List.flatten_cons] at h
      exact topicSafeChar_ne_nil d (List.append_eq_nil.mp h.symm).1
  | cons c s ih =>
    intro t h
    cases t with
    | nil =>
      exfalso
      simp only [topic_safe_chars, List.map_nil, List.flatten_nil, List.map_cons,
        List.flatten_cons] at h
      exact topicSafeChar_ne_nil c (List.append_eq_nil.mp h).1
    | cons d t =>
      simp only [topic_safe_chars, List.map_cons, List.flatten_cons] at h
      by_cases hc : isTopicSafeChar c <;> by_cases hd : isTopicSafeChar d
      · simp only [topicSafeChar, hc, hd, if_true, List.singleton_append,
          List.cons.injEq] at h
        obtain ⟨hcd, htail⟩ := h
        have hst : s = t := ih htail
        rw [hcd, hst]
      · exfalso
        simp only [topicSafeChar, hc, hd, if_true, Bool.false_eq_true, if_false,
          List.singleton_append, List.cons_append, List.cons.injEq] at h
        rw [h.1] at hc
        simp [isTopicSafeChar] at hc
      · exfalso
        simp only [topicSafeChar, hc, hd, if_true, Bool.false_eq_true, if_false,
          List.singleton_append, List.cons_append, List.cons.injEq] at h
        rw [← h.1] at hd
        simp [isTopicSafeChar] at hd
      · simp only [topicSafeChar, hc, hd, Bool.false_eq_true, if_false,
          List.cons_append, List.cons.injEq, true_and] at h
        obtain ⟨hhex, htail⟩ :=
          List.append_inj h (by rw [hexDigits6_length, hexDigits6_length])
        have hn := hexDigits6_inj (char_toNat_lt_16_pow_6 c) (char_toNat_lt_16_pow_6 d) hhex
        have hcd : c = d := Char.eq_of_val_eq (UInt32.ext hn)
        have hst : s = t := ih htail
        rw [hcd, hst]

theorem topic_safe_string_injective {s t : String}
    (h : topic_safe_string s = topic_safe_string t) : s = t := by
  have h2 : topic_safe_chars s.data = topic_safe_chars t.data := congrArg String.data h
  have h3 : s.data = t.data := topic_safe_chars_injective h2
  cases s
  cases t
  exact congrArg String.mk h3

theorem string_append_cancel_left {a b c : String} (h : a ++ b = a ++ c) : b = c := by
  have h2 := congrArg String.data h
  simp only [String.data_append] at h2
  have h3 := List.append_cancel_left h2
  cases b
  cases c
  exact congrArg String.mk h3

end TopicSafeLemmas

section Helpers

theorem as_unit_units (t : TemperatureValue) (d : TemperatureUnits) :
    (t.as_unit d).units = d := by
  unfold TemperatureValue.as_unit
  split
  · assumption
  · cases d <;> rfl

theorem as_unit_mono (t1 t2 : TemperatureValue) (u : TemperatureUnits)
    (hu : t1.units = t2.units) (h : t1.value ≤ t2.value) :
    (t1.as_unit u).value ≤ (t2.as_unit u).value := by
  obtain ⟨x, xu⟩ := t1
  obtain ⟨y, yu⟩ := t2
  simp only at hu
  subst hu
  unfold TemperatureValue.as_unit
  cases xu <;> cases u <;> simp_all <;> linarith

end Helpers

section Claims

/-- C2: For every temperature value `(value, unit)` and every target
unit, `as_unit` is the identity when the unit equals the target, and
otherwise applies the exact Celsius/Fahrenheit affine transform, so that
converting to the other unit and back recovers the original value
exactly (round-trip law). -/
theorem as_unit_identity_affine_roundtrip (t : TemperatureValue) (u : TemperatureUnits) (v : ℚ) :
    t.as_unit t.units = t ∧
    (t.as_unit u).as_unit t.units = t ∧
    (TemperatureValue.mk v TemperatureUnits.Celsius).as_unit TemperatureUnits.Farenheit
      = TemperatureValue.mk (v * 9 / 5 + 32) TemperatureUnits.Farenheit ∧
    (TemperatureValue.mk v TemperatureUnits.Farenheit).as_unit TemperatureUnits.Celsius
      = TemperatureValue.mk ((v - 32) * 5 / 9) TemperatureUnits.Celsius := by
  obtain ⟨x, xu⟩ := t
  refine ⟨?_, ?_, ?_, ?_⟩
  · cases xu <;> simp [TemperatureValue.as_unit]
  · cases xu <;> cases u <;> simp [TemperatureValue.as_unit]
  · simp [TemperatureValue.as_unit]
  · simp [TemperatureValue.as_unit]

/-- C3: `parse_temperature_constraints` declares the unit Celsius
exactly when a field named `"unit"` is present whose default value is
the string literal `"Celsius"`; any other present default (including
`"Farenheit"`), a non-string or absent default, or absence of the
`"unit"` field yields Fahrenheit as the declared unit. -/
theorem declared_units_celsius_iff (cap : DeviceCapability) :
    (declared_units cap = TemperatureUnits.Celsius ↔
      (∃ f, cap.struct_field_by_name "unit" = some f ∧
        f.default_value.bind JsonValue.as_str = some "Celsius")) ∧
    (declared_units cap = TemperatureUnits.Farenheit ↔
      ¬ (∃ f, cap.struct_field_by_name "unit" = some f ∧
        f.default_value.bind JsonValue.as_str = some "Celsius")) := by
  have key : declared_units cap = TemperatureUnits.Celsius ↔
      (∃ f, cap.struct_field_by_name "unit" = some f ∧
        f.default_value.bind JsonValue.as_str = some "Celsius") := by
    unfold declared_units
    rcases hf : cap.struct_field_by_name "unit" with _ | f
    · simp
    · rcases hv : f.default_value.bind JsonValue.as_str with _ | s
      · simp [hv]
      · by_cases hs : s = "Celsius"
        · subst hs; simp [hv]
        · by_cases hs2 : s = "Farenheit" <;> simp [hv, hs, hs2]
  refine ⟨key, ?_⟩
  constructor
  · intro h hc
    rw [key.mpr hc] at h
    exact absurd h (by simp)
  · intro h
    rcases hu : declared_units cap with _ | _
    · exact absurd (key.mp hu) h
    · rfl

/-- C7: For every inbound command whose device id does not resolve via
the state collaborator, `mqtt_set_temperature` returns a not-found
error (so the forwarded mutation triple is never produced), regardless
of the unit token and payload. -/
theorem mqtt_set_temperature_unknown_device (value id instance_name units : String)
    (resolve_device : String → Option ServiceDevice)
    (h : resolve_device id = none) :
    mqtt_set_temperature value id instance_name units resolve_device
      = .error (.notFound id) := by
  unfold mqtt_set_temperature
  rw [h]

/-- Witness for C7: a resolver that knows no device yields the
not-found error on a concrete command. -/
theorem mqtt_set_temperature_unknown_device_witness :
    mqtt_set_temperature "21.5" "unknown-id" "targetTemperature" "Celsius" (fun _ => none)
      = .error (.notFound "unknown-id") :=
  mqtt_set_temperature_unknown_device "21.5" "unknown-id" "targetTemperature" "Celsius"
    (fun _ => none) rfl

/-- C5: For a temperature field of the integer-range-with-unit kind,
the field's own unit attribute (when it is one of the recognized
literals) overrides the declared unit for interpreting the raw min/max,
otherwise the declared unit is used; the raw bounds are then converted
into the declared overall unit positionally (min from the raw min, max
from the raw max, with no reordering of an inverted range). -/
theorem parse_range_unit_override (cap : DeviceCapability) (f : StructField)
    (u : Option String) (r : IntegerRange)
    (ht : cap.struct_field_by_name "temperature" = some f)
    (hty : f.field_type = DeviceParameters.Integer u r) :
    parse_temperature_constraints cap = .ok
      { min := (TemperatureValue.new (r.min : ℚ)
          (range_units_of u (declared_units cap))).as_unit (declared_units cap)
        max := (TemperatureValue.new (r.max : ℚ)
          (range_units_of u (declared_units cap))).as_unit (declared_units cap) } ∧
    range_units_of (some "Celsius") (declared_units cap) = TemperatureUnits.Celsius ∧
    range_units_of (some "Farenheit") (declared_units cap) = TemperatureUnits.Farenheit ∧
    range_units_of none (declared_units cap) = declared_units cap := by
  refine ⟨?_, by simp [range_units_of], by simp [range_units_of], rfl⟩
  simp only [parse_temperature_constraints, ht, hty]

/-- A sample capability whose temperature field carries its own
`"Celsius"` unit attribute while the declared overall unit (no `"unit"`
field) is Fahrenheit. -/
def capOverrideSample : DeviceCapability :=
  { instance_name := "targetTemperature"
    fields := [⟨"temperature", DeviceParameters.Integer (some "Celsius") ⟨0, 30⟩, none⟩] }

/-- Witness for C5: on `capOverrideSample`, the raw range is read in the
field's own Celsius unit and converted to the declared Fahrenheit
unit. -/
theorem parse_range_unit_override_witness :
    parse_temperature_constraints capOverrideSample = .ok
      { min := (TemperatureValue.new ((0 : ℤ) : ℚ)
          (range_units_of (some "Celsius") (declared_units capOverrideSample))).as_unit
          (declared_units capOverrideSample)
        max := (TemperatureValue.new ((30 : ℤ) : ℚ)
          (range_units_of (some "Celsius") (declared_units capOverrideSample))).as_unit
          (declared_units capOverrideSample) } :=
  (parse_range_unit_override capOverrideSample
    ⟨"temperature", DeviceParameters.Integer (some "Celsius") ⟨0, 30⟩, none⟩
    (some "Celsius") ⟨0, 30⟩ rfl rfl).1

/-- C6: `parse_temperature_constraints` fails exactly when the
capability has no `"temperature"` field (with the no-temperature-field
schema error) or that field is not of the integer-range-with-unit kind
(with the unexpected-temperature-value schema error); on every other
input it succeeds. -/
theorem parse_failure_characterization (cap : DeviceCapability) :
    (parse_temperature_constraints cap = .error (.noTemperatureField cap) ↔
      cap.struct_field_by_name "temperature" = none) ∧
    (parse_temperature_constraints cap = .error (.unexpectedTemperatureValue cap) ↔
      (∃ f, cap.struct_field_by_name "temperature" = some f ∧
        ∀ u r, f.field_type ≠ DeviceParameters.Integer u r)) ∧
    ((∃ c, parse_temperature_constraints cap = .ok c) ↔
      (∃ f u r, cap.struct_field_by_name "temperature" = some f ∧
        f.field_type = DeviceParameters.Integer u r)) := by
  rcases ht : cap.struct_field_by_name "temperature" with _ | f
  · simp [parse_temperature_constraints, ht]
  · cases hty : f.field_type <;> simp [parse_temperature_constraints, ht, hty]

/-- C10: An unrecognized unit string on the temperature field never
causes an error: when the attribute is present but is neither exactly
`"Celsius"` nor exactly `"Farenheit"`, the raw min/max are silently
interpreted in the declared overall unit. -/
theorem parse_unrecognized_unit_ignored (cap : DeviceCapability) (f : StructField)
    (u : String) (r : IntegerRange)
    (ht : cap.struct_field_by_name "temperature" = some f)
    (hty : f.field_type = DeviceParameters.Integer (some u) r)
    (h1 : u ≠ "Celsius") (h2 : u ≠ "Farenheit") :
    range_units_of (some u) (declared_units cap) = declared_units cap ∧
    parse_temperature_constraints cap = .ok
      { min := TemperatureValue.mk (r.min : ℚ) (declared_units cap)
        max := TemperatureValue.mk (r.max : ℚ) (declared_units cap) } := by
  have hru : range_units_of (some u) (declared_units cap) = declared_units cap := by
    simp [range_units_of, h1, h2]
  refine ⟨hru, ?_⟩
  simp only [parse_temperature_constraints, ht, hty, hru]
  simp [TemperatureValue.new, TemperatureValue.as_unit]

/-- C1: For every capability that parses successfully, the entity built
by `TargetTemperatureEntity.new` publishes min equal to the floor of the
normalized minimum and max equal to the ceil of the normalized maximum
(normalized to the display unit taken from the preference snapshot),
with step fixed at 1. -/
theorem new_published_range (device : ServiceDevice) (units : TemperatureScale)
    (cap : DeviceCapability) (c : TemperatureConstraints)
    (h : parse_temperature_constraints cap = .ok c) :
    ∃ e, TargetTemperatureEntity.new device units cap = .ok e ∧
      e.number.min = some ⌊(c.as_unit units.toUnits).min.value⌋ ∧
      e.number.max = some ⌈(c.as_unit units.toUnits).max.value⌉ ∧
      e.number.step = 1 := by
  simp only [TargetTemperatureEntity.new, h]
  exact ⟨_, rfl, rfl, rfl, rfl⟩

/-- The C1 scenario capability: the `"unit"` field defaults to
`"Farenheit"`, the temperature field has range `{min 0, max 30}` tagged
`"Celsius"`. -/
def capScenarioSample : DeviceCapability :=
  { instance_name := "targetTemperature"
    fields := [
      ⟨"unit", DeviceParameters.Enum ["Celsius", "Farenheit"], some (.str "Farenheit")⟩,
      ⟨"temperature", DeviceParameters.Integer (some "Celsius") ⟨0, 30⟩, none⟩] }

/-- Witness for C1: the scenario capability with a Fahrenheit display
preference publishes min 32, max 86, step 1. -/
theorem new_published_range_witness :
    (TargetTemperatureEntity.new ⟨"dev1"⟩ TemperatureScale.Fahrenheit capScenarioSample).map
      (fun e => (e.number.min, e.number.max, e.number.step))
      = .ok (some 32, some 86, 1) := by
  obtain ⟨e, he, hmin, hmax, hstep⟩ :=
    new_published_range ⟨"dev1"⟩ TemperatureScale.Fahrenheit capScenarioSample
      ⟨⟨32, .Farenheit⟩, ⟨86, .Farenheit⟩⟩
      (by
        simp [parse_temperature_constraints, capScenarioSample, declared_units,
          range_units_of, DeviceCapability.struct_field_by_name, TemperatureValue.new,
          TemperatureValue.as_unit, JsonValue.as_str]
        norm_num)
  rw [he, Except.map]
  simp only [hmin, hmax, hstep, TemperatureConstraints.as_unit, TemperatureValue.as_unit,
    TemperatureScale.toUnits]
  norm_num

/-- C4: The unique identifier built by `TargetTemperatureEntity.new` is
the topic-safe device id and the topic-safe instance name joined by
`"-"`; it is a pure function of the `(device, instance)` pair, and for
two capabilities on the same device it coincides exactly when the
instance names coincide (so distinct instance names never collide). -/
theorem new_unique_id (device : ServiceDevice) (units : TemperatureScale)
    (c1 c2 : DeviceCapability)
    (h1 : (TargetTemperatureEntity.new device units c1).isOk = true)
    (h2 : (TargetTemperatureEntity.new device units c2).isOk = true) :
    (TargetTemperatureEntity.new device units c1).map (fun e => e.number.base.unique_id)
        = .ok (topic_safe_id device ++ "-" ++ topic_safe_string c1.instance_name) ∧
    ((TargetTemperatureEntity.new device units c1).map (fun e => e.number.base.unique_id)
        = (TargetTemperatureEntity.new device units c2).map
            (fun e => e.number.base.unique_id)
      ↔ c1.instance_name = c2.instance_name) := by
  have key : ∀ c : DeviceCapability, (TargetTemperatureEntity.new device units c).isOk = true →
      (TargetTemperatureEntity.new device units c).map (fun e => e.number.base.unique_id)
        = .ok (topic_safe_id device ++ "-" ++ topic_safe_string c.instance_name) := by
    intro c hc
    unfold TargetTemperatureEntity.new at hc ⊢
    rcases hp : parse_temperature_constraints c with err | pc
    · rw [hp] at hc
      exact absurd hc (by simp [Except.isOk, Except.toBool])
    · rfl
  have k1 := key c1 h1
  have k2 := key c2 h2
  refine ⟨k1, ?_⟩
  rw [k1, k2]
  constructor
  · intro h
    exact topic_safe_string_injective (string_append_cancel_left (Except.ok.inj h))
  · intro h
    rw [h]

/-- A sample capability named `insta` for the C4 witness. -/
def capIdSampleA : DeviceCapability :=
  { instance_name := "insta"
    fields := [⟨"temperature", DeviceParameters.Integer none ⟨0, 30⟩, none⟩] }

/-- A sample capability named `instb` for the C4 witness. -/
def capIdSampleB : DeviceCapability :=
  { instance_name := "instb"
    fields := [⟨"temperature", DeviceParameters.Integer none ⟨0, 30⟩, none⟩] }

/-- Witness for C4: on a concrete device, the identifier is the joined
topic-safe pair, and the identifiers of two entities agree exactly when
the instance names do (here they differ). -/
theorem new_unique_id_witness :
    (TargetTemperatureEntity.new ⟨"dev1"⟩ TemperatureScale.Fahrenheit capIdSampleA).map
        (fun e => e.number.base.unique_id)
      = .ok (topic_safe_id ⟨"dev1"⟩ ++ "-" ++ topic_safe_string "insta") ∧
    ((TargetTemperatureEntity.new ⟨"dev1"⟩ TemperatureScale.Fahrenheit capIdSampleA).map
        (fun e => e.number.base.unique_id)
      = (TargetTemperatureEntity.new ⟨"dev1"⟩ TemperatureScale.Fahrenheit capIdSampleB).map
          (fun e => e.number.base.unique_id)
      ↔ ("insta" : String) = "instb") :=
  new_unique_id ⟨"dev1"⟩ TemperatureScale.Fahrenheit capIdSampleA capIdSampleB rfl rfl

/-- A sample capability whose temperature field carries the
unrecognized unit attribute `"celsius"` (lower case) while the declared
overall unit is Celsius via the `"unit"` field default. -/
def capUnrecognizedSample : DeviceCapability :=
  { instance_name := "targetTemperature"
    fields := [
      ⟨"unit", DeviceParameters.Enum ["Celsius", "Farenheit"], some (.str "Celsius")⟩,
      ⟨"temperature", DeviceParameters.Integer (some "celsius") ⟨10, 20⟩, none⟩] }

/-- Witness for C10: the lowercase token `"celsius"` is not honored as
an override and does not cause an error; the raw bounds are read in the
declared unit. -/
theorem parse_unrecognized_unit_ignored_witness :
    range_units_of (some "celsius") (declared_units capUnrecognizedSample)
        = declared_units capUnrecognizedSample ∧
    parse_temperature_constraints capUnrecognizedSample = .ok
      { min := TemperatureValue.mk ((10 : ℤ) : ℚ) (declared_units capUnrecognizedSample)
        max := TemperatureValue.mk ((20 : ℤ) : ℚ) (declared_units capUnrecognizedSample) } :=
  parse_unrecognized_unit_ignored capUnrecognizedSample
    ⟨"temperature", DeviceParameters.Integer (some "celsius") ⟨10, 20⟩, none⟩
    "celsius" ⟨10, 20⟩ rfl rfl (by decide) (by decide)

/-- C8: For every inbound command whose device id resolves, the router
fails with a scale parse error exactly when the unit token is not a
recognized `TemperatureScale` spelling, fails with a value parse error
exactly when the token is recognized but the payload is not a decimal
number, and otherwise forwards the decoded `(device, instance, value)`
triple unchanged to the target-temperature-set operation. -/
theorem mqtt_set_temperature_decode (value id instance_name units : String)
    (resolve_device : String → Option ServiceDevice) (device : ServiceDevice)
    (h : resolve_device id = some device) :
    (TemperatureScale.parse units = none →
      mqtt_set_temperature value id instance_name units resolve_device
        = .error (.parseScale units)) ∧
    (∀ scale, TemperatureScale.parse units = some scale →
      TemperatureValue.parse_with_optional_scale value (some scale) = none →
      mqtt_set_temperature value id instance_name units resolve_device
        = .error (.parseValue value)) ∧
    (∀ scale target, TemperatureScale.parse units = some scale →
      TemperatureValue.parse_with_optional_scale value (some scale) = some target →
      mqtt_set_temperature value id instance_name units resolve_device
        = .ok (device, instance_name, target)) := by
  refine ⟨?_, ?_, ?_⟩
  · intro hs
    simp only [mqtt_set_temperature, h, hs]
  · intro scale hs hv
    simp only [mqtt_set_temperature, h, hs, hv]
  · intro scale target hs hv
    simp only [mqtt_set_temperature, h, hs, hv]

/-- Witness for C8: with a resolving device, the token `"Kelvin"` and
the payload `"abc"` each yield the corresponding parse error, and unit
token `"Celsius"` with payload `"21.5"` forwards 21.5 Celsius
unchanged. -/
theorem mqtt_set_temperature_decode_witness :
    mqtt_set_temperature "21.5" "dev1" "targetTemperature" "Kelvin"
        (fun _ => some ⟨"dev1"⟩) = .error (.parseScale "Kelvin") ∧
    mqtt_set_temperature "abc" "dev1" "targetTemperature" "Celsius"
        (fun _ => some ⟨"dev1"⟩) = .error (.parseValue "abc") ∧
    mqtt_set_temperature "21.5" "dev1" "targetTemperature" "Celsius"
        (fun _ => some ⟨"dev1"⟩)
      = .ok (⟨"dev1"⟩, "targetTemperature", ⟨43 / 2, TemperatureUnits.Celsius⟩) := by
  have hparse : TemperatureValue.parse_with_optional_scale "21.5"
      (some TemperatureScale.Celsius)
      = some ⟨43 / 2, TemperatureUnits.Celsius⟩ := by
    have h0 : parseDecimal "21.5"
        = some ((1 : ℚ) * (((21 : ℕ) : ℚ) + ((5 : ℕ) : ℚ) / (10 : ℚ) ^ (1 : ℕ))) := rfl
    simp only [TemperatureValue.parse_with_optional_scale, h0, Option.map_some]
    norm_num [TemperatureScale.toUnits]
  refine ⟨?_, ?_, ?_⟩
  · exact (mqtt_set_temperature_decode "21.5" "dev1" "targetTemperature" "Kelvin"
      (fun _ => some ⟨"dev1"⟩) ⟨"dev1"⟩ rfl).1 rfl
  · exact (mqtt_set_temperature_decode "abc" "dev1" "targetTemperature" "Celsius"
      (fun _ => some ⟨"dev1"⟩) ⟨"dev1"⟩ rfl).2.1 TemperatureScale.Celsius rfl rfl
  · exact (mqtt_set_temperature_decode "21.5" "dev1" "targetTemperature" "Celsius"
      (fun _ => some ⟨"dev1"⟩) ⟨"dev1"⟩ rfl).2.2 TemperatureScale.Celsius
      ⟨43 / 2, TemperatureUnits.Celsius⟩ rfl hparse

/-- A sample capability whose temperature field reports the inverted
range `{min 30, max 0}`. -/
def capInvertedSample : DeviceCapability :=
  { instance_name := "targetTemperature"
    fields := [⟨"temperature", DeviceParameters.Integer none ⟨30, 0⟩, none⟩] }

/-- Counterexample for C9: on an inverted source range the parser
returns constraints whose min exceeds max, so the claimed invariant
`min <= max` does not hold for every produced value. -/
theorem constraints_inverted_counterexample :
    parse_temperature_constraints capInvertedSample
      = .ok ⟨⟨30, TemperatureUnits.Farenheit⟩, ⟨0, TemperatureUnits.Farenheit⟩⟩ ∧
    ¬ ((⟨⟨30, TemperatureUnits.Farenheit⟩, ⟨0, TemperatureUnits.Farenheit⟩⟩ :
        TemperatureConstraints).min.value
      ≤ (⟨⟨30, TemperatureUnits.Farenheit⟩, ⟨0, TemperatureUnits.Farenheit⟩⟩ :
        TemperatureConstraints).max.value) := by
  constructor
  · simp [parse_temperature_constraints, capInvertedSample, declared_units, range_units_of,
      DeviceCapability.struct_field_by_name, TemperatureValue.new, TemperatureValue.as_unit]
  · norm_num

/-- C9 (amended): every constraints value produced by
`parse_temperature_constraints` carries the same unit tag on min and
max, and `TemperatureConstraints.as_unit` keeps the tags equal to the
target unit; the ordering half of the claimed invariant holds exactly
when the source range is not inverted: a parsed constraint satisfies
`min <= max` whenever the raw range does, and `as_unit` preserves
`min <= max` for same-tagged constraints. -/
theorem constraints_unit_tags_and_order (cap : DeviceCapability) (c : TemperatureConstraints)
    (u : TemperatureUnits) (h : parse_temperature_constraints cap = .ok c) :
    c.min.units = c.max.units ∧
    (c.as_unit u).min.units = (c.as_unit u).max.units ∧
    (c.min.value ≤ c.max.value → (c.as_unit u).min.value ≤ (c.as_unit u).max.value) ∧
    (∀ f un r, cap.struct_field_by_name "temperature" = some f →
      f.field_type = DeviceParameters.Integer un r → r.min ≤ r.max →
      c.min.value ≤ c.max.value) := by
  rcases ht : cap.struct_field_by_name "temperature" with _ | f0
  · simp [parse_temperature_constraints, ht] at h
  · cases hty : f0.field_type with
    | Enum os => simp [parse_temperature_constraints, ht, hty] at h
    | Struct => simp [parse_temperature_constraints, ht, hty] at h
    | String => simp [parse_temperature_constraints, ht, hty] at h
    | Integer un0 r0 =>
    simp only [parse_temperature_constraints, ht, hty, Except.ok.injEq] at h
    subst h
    have tags : ∀ d : TemperatureUnits,
        ((TemperatureValue.new (r0.min : ℚ)
            (range_units_of un0 (declared_units cap))).as_unit d).units
          = ((TemperatureValue.new (r0.max : ℚ)
            (range_units_of un0 (declared_units cap))).as_unit d).units := by
      intro d
      rw [as_unit_units, as_unit_units]
    refine ⟨tags _, ?_, ?_, ?_⟩
    · simp only [TemperatureConstraints.as_unit]
      rw [as_unit_units, as_unit_units]
    · intro hle
      simp only [TemperatureConstraints.as_unit]
      exact as_unit_mono _ _ u (tags _) hle
    · intro f un r ht2 hty2 hr
      have hf : f0 = f := Option.some.inj ht2
      subst hf
      rw [hty] at hty2
      obtain ⟨hun, hrr⟩ : un0 = un ∧ r0 = r := by
        injection hty2 with a b
        exact ⟨a, b⟩
      subst hun
      subst hrr
      refine as_unit_mono _ _ _ rfl ?_
      simp only [TemperatureValue.new]
      exact_mod_cast hr

/-- A sample capability with the well-ordered range `{min 0, max 30}`
for the C9 witness. -/
def capOrderedSample : DeviceCapability :=
  { instance_name := "targetTemperature"
    fields := [⟨"temperature", DeviceParameters.Integer none ⟨0, 30⟩, none⟩] }

/-- Witness for C9 (amended): the constraints parsed from a concrete
well-ordered capability share their unit tag and satisfy
`min <= max`. -/
theorem constraints_unit_tags_and_order_witness :
    ((⟨⟨0, TemperatureUnits.Farenheit⟩, ⟨30, TemperatureUnits.Farenheit⟩⟩ :
        TemperatureConstraints).min.units
      = (⟨⟨0, TemperatureUnits.Farenheit⟩, ⟨30, TemperatureUnits.Farenheit⟩⟩ :
        TemperatureConstraints).max.units) ∧
    ((⟨⟨0, TemperatureUnits.Farenheit⟩, ⟨30, TemperatureUnits.Farenheit⟩⟩ :
        TemperatureConstraints).min.value
      ≤ (⟨⟨0, TemperatureUnits.Farenheit⟩, ⟨30, TemperatureUnits.Farenheit⟩⟩ :
        TemperatureConstraints).max.value) := by
  have h := constraints_unit_tags_and_order capOrderedSample
    ⟨⟨0, TemperatureUnits.Farenheit⟩, ⟨30, TemperatureUnits.Farenheit⟩⟩
    TemperatureUnits.Celsius
    (by
      simp [parse_temperature_constraints, capOrderedSample, declared_units, range_units_of,
        DeviceCapability.struct_field_by_name, TemperatureValue.new, TemperatureValue.as_unit])
  exact ⟨h.1, h.2.2.2 ⟨"temperature", DeviceParameters.Integer none ⟨0, 30⟩, none⟩
    none ⟨0, 30⟩ rfl rfl (by norm_num)⟩

end Claims
